import Mathlib

/-!
Shallow embedding of the core of the vk-bot repository (a VK laundry-booking
bot backed by Google Sheets) and a verification of its specification claims.

The embedding covers:
* `src/cache.py` — the TTL single-flight cache (`CacheEntry`, `Cache.get`,
  `Cache._load_and_cache`, `get_cached_bookings`), including a small-step
  cooperative scheduler model of `asyncio` for the concurrency claims;
* `src/google_sheets.py` — `with_retries`, `time_of_begining`;
* `src/handlers/role.py` — `all_time_slots`, `free_times_for_date`,
  `booking_window_dates`, `available_dates`;
* `src/handlers/user.py` — the per-day quota check in `handle_time`;
* `src/notifications.py` — the overdue-booking sweep of `notification_loop`.

Conventions: machine floats for epoch seconds are modelled as `Int` seconds;
Python `None` data payloads are `Option`; a raised exception is
`Except.error`.  Where the Python source compares values of different
dynamic types (`str == datetime.date`) or uses an un-awaited coroutine, the
embedding models the actual CPython semantics of those operations (an
`==` between unrelated types is `False`; iterating or comparing a coroutine
raises `TypeError`), because several claims hinge on exactly those lines.
-/

namespace VkBot

/-- Decidable equality for `Except`, needed so that runs of the embedded
machines can be checked by `decide`. -/
instance {ε α : Type} [DecidableEq ε] [DecidableEq α] :
    DecidableEq (Except ε α) := fun a b =>
  match a, b with
  | .error x, .error y =>
    match decEq x y with
    | isTrue h => isTrue (h ▸ rfl)
    | isFalse h => isFalse (fun hc => h (by injection hc))
  | .ok x, .ok y =>
    match decEq x y with
    | isTrue h => isTrue (h ▸ rfl)
    | isFalse h => isFalse (fun hc => h (by injection hc))
  | .error _, .ok _ => isFalse (fun hc => Except.noConfusion hc)
  | .ok _, .error _ => isFalse (fun hc => Except.noConfusion hc)

/-- Kinds of Python exceptions raised by the embedded code paths. -/
inductive PyErr where
  | typeError
  | valueError
  | attributeError
  deriving DecidableEq, Repr

/-! ## src/cache.py — CacheEntry (lines 18–42) -/

/-- Structure CacheEntry (src/cache.py lines 18–31): cached payload with its creation
time (epoch seconds) and optional TTL in seconds (`none` = never expires).
The payload is modelled as a `Nat`. -/
structure CacheEntry where
  data : Nat
  created_at : Int
  ttl : Option Int
  deriving DecidableEq, Repr

/-- Method CacheEntry.is_expired (src/cache.py lines 33–42): no TTL means never
expired; otherwise the entry is expired iff `now - created_at > ttl`
(strictly). `now` stands for `time.time()`. -/
def CacheEntry.is_expired (e : CacheEntry) (now : Int) : Bool :=
  match e.ttl with
  | none => false
  | some t => decide (now - e.created_at > t)

/-! ## src/cache.py — `Cache._load_and_cache` (lines 140–180)

The loader either produces data or raises; its outcome is passed in as an
`Except Nat Nat` (error payloads are numbered so that distinct exceptions
can be told apart). -/

/-- Method Cache._load_and_cache (src/cache.py lines 140–180) for one key, given
the loader outcome: on success the new value is stored with the resolved TTL
(per-call `ttl` if given, else the cache-wide default, line 176) and
returned; on failure the previous entry's value is returned unchanged if one
exists (lines 165–171, even when expired), otherwise the exception
propagates (line 172).  Returns (result, cache entry for the key after the
call). -/
def load_and_cache (entry : Option CacheEntry) (now : Int)
    (outcome : Except Nat Nat) (ttl : Option Int) (default_ttl : Option Int) :
    Except Nat Nat × Option CacheEntry :=
  match outcome with
  | .error e =>
    match entry with
    | some old => (.ok old.data, some old)
    | none => (.error e, none)
  | .ok v =>
    let ttl_to_use := match ttl with
      | some t => some t
      | none => default_ttl
    (.ok v, some ⟨v, now, ttl_to_use⟩)

/-- Method Cache.get (src/cache.py lines 66–138) specialised to a single caller
with no load in flight (`_pending` empty), which makes it deterministic:
lines 85–87 return a live entry at once; with no loader, lines 90–91 return
the (possibly stale) entry data or Python `None`; otherwise the second and
third checks (lines 96–98, 124–126) see the same state and the call runs
`_load_and_cache` exactly once.  `loader = none` models passing no loader;
`loader = some o` gives the outcome of one loader invocation.  Returns
(result, cache entry afterwards, number of loader invocations). -/
def cache_get_solo (entry : Option CacheEntry) (now : Int)
    (loader : Option (Except Nat Nat)) (ttl : Option Int)
    (default_ttl : Option Int) :
    Except Nat (Option Nat) × Option CacheEntry × Nat :=
  let live := match entry with
    | some e => !(e.is_expired now)
    | none => false
  if live then
    (.ok (entry.map (·.data)), entry, 0)
  else
    match loader with
    | none => (.ok (entry.map (·.data)), entry, 0)
    | some outcome =>
      let r := load_and_cache entry now outcome ttl default_ttl
      ((r.1.map some), r.2, 1)

/-! ## src/google_sheets.py — `with_retries` (lines 179–191) -/

/-- Trace of one call of the wrapper returned by `with_retries`: the final
outcome, how many times the underlying loader was invoked, and the
`time.sleep` durations (in seconds) performed between attempts, in order. -/
structure RetryTrace where
  result : Except Nat Nat
  calls : Nat
  sleeps : List ℚ
  deriving DecidableEq, Repr

/-- Loop of the wrapper returned by with_retries (src/google_sheets.py lines 180–190):
`remaining` counts how many iterations of `for attempt in range(retries)`
are left and `attempt` is the current index.  On success the value is
returned; on failure at the last attempt (line 186–187) the exception is
re-raised; otherwise the code sleeps `delay` seconds and doubles the delay.
`f i` is the outcome of the `i`-th (0-based) loader invocation.
The `remaining = 0` case is the unreachable `return loader()` after the
loop (line 190). -/
def with_retries_go (f : Nat → Except Nat Nat) :
    Nat → Nat → ℚ → Nat → List ℚ → RetryTrace
  | 0, attempt, _, calls, sleeps =>
    -- line 190: `return loader()` (never reached when retries > 0)
    { result := f attempt, calls := calls + 1, sleeps := sleeps.reverse }
  | remaining + 1, attempt, delay, calls, sleeps =>
    match f attempt with
    | .ok v => { result := .ok v, calls := calls + 1, sleeps := sleeps.reverse }
    | .error e =>
      if remaining = 0 then
        -- `attempt == retries - 1`: re-raise (lines 186–187)
        { result := .error e, calls := calls + 1, sleeps := sleeps.reverse }
      else
        with_retries_go f remaining (attempt + 1) (delay * 2) (calls + 1)
          (delay :: sleeps)

/-- One call of the function returned by `with_retries(loader)`
(src/google_sheets.py lines 179–191) with the default `retries=5`,
`base_delay=0.5`. -/
def with_retries_run (f : Nat → Except Nat Nat) : RetryTrace :=
  with_retries_go f 5 0 (1 / 2) 0 []

/-! ## Python dynamic-typing helpers

The availability/quota code of the repository calls `async` functions
without `await` and compares values of unrelated types; the helpers below
embed exactly the CPython semantics of the operations those lines perform. -/

/-- Value of a Python expression that the surrounding code expects to be an
hour number: an `int`, Python `None` (what `time_of_begining` returns for a
weekday with no schedule row), or an un-awaited coroutine object (what the
call sites in src/handlers/role.py lines 89 and 92 actually bind, since the
`async` functions are called without `await`). -/
inductive PySchedVal where
  | pyint (n : Int)
  | pynone
  | coroutine
  deriving DecidableEq, Repr

/-- Python comparison `a < b` between an `int` and a `PySchedVal`: two ints
compare normally; `int < None` and `int < coroutine` raise `TypeError`. -/
def pyLtInt (a : Int) : PySchedVal → Except PyErr Bool
  | .pyint b => .ok (decide (a < b))
  | .pynone => .error .typeError
  | .coroutine => .error .typeError

/-- Python comparison `a >= b` between an `int` and a `PySchedVal`
(role.py line 102): same failure modes as `pyLtInt`. -/
def pyGeInt (a : Int) : PySchedVal → Except PyErr Bool
  | .pyint b => .ok (decide (a ≥ b))
  | .pynone => .error .typeError
  | .coroutine => .error .typeError

/-- Python equality between a `str` (a record's `"Дата"` cell) and a
`datetime.date` object: values of unrelated types without a custom `__eq__`
compare unequal, so this is constantly `False`.  This is the comparison
performed at src/handlers/role.py line 74 and src/handlers/user.py line 340,
where `selected_date` is a `datetime.date` but the sheet cell is a string. -/
def pyEqStrDate (_s : String) (_d : Int) : Bool := false

/-- Something the Python code iterates over: either an actual list, or a
coroutine object — the result of calling an `async` function without
`await`, as at src/handlers/user.py line 339 and src/notifications.py lines
43–48 and 110–113.  Iterating a coroutine raises `TypeError`. -/
inductive PyIter (α : Type) where
  | list (l : List α)
  | coroutine
  deriving DecidableEq, Repr

/-- Iterate a `PyIter`: lists yield their elements, a coroutine raises
`TypeError` (CPython: 'coroutine' object is not iterable). -/
def pyIterate {α : Type} : PyIter α → Except PyErr (List α)
  | .list l => .ok l
  | .coroutine => .error .typeError

/-! ## Dates

Calendar dates are modelled as integer day numbers with day 0 falling on a
Monday, so `datetime.date.weekday()` is `d % 7` and `timedelta(days = k)`
is `+ k`. -/

/-! ## src/google_sheets.py — schedule lookup (lines 543–578) -/

/-- Row of the Schedule sheet as fetched by `_fetch_records`: the weekday
name (`"День недели"`), opening hour (`"Начало"`) and closing hour
(`"Конец"`) cells, all strings. -/
structure ScheduleRec where
  weekday : String
  opening : String
  closing : String
  deriving DecidableEq, Repr

/-- Russian weekday names used by the `dict_weekdays` literal in
`time_of_begining` (src/google_sheets.py lines 565–573), indexed 0 = Monday. -/
def weekday_names_ru : List String :=
  ["понедельник", "вторник", "среда", "четверг", "пятница", "суббота",
   "воскресенье"]

/-- Python `str.lower()` on one character, for the alphabets the schedule
cells use: ASCII `A`–`Z` and Cyrillic `А`–`Я`/`Ё` map to their lowercase
forms, everything else is unchanged.  (Defined over the character list so
that it evaluates inside the kernel; `String.toLower` recurses on byte
positions and does not.) -/
def pyLowerChar (c : Char) : Char :=
  if 'A' ≤ c ∧ c ≤ 'Z' then Char.ofNat (c.toNat + 32)
  else if 'А' ≤ c ∧ c ≤ 'Я' then Char.ofNat (c.toNat + 32)
  else if c = 'Ё' then 'ё'
  else c

/-- Python `str.lower()` (as used at src/google_sheets.py line 576). -/
def pyLower (s : String) : String := ⟨s.data.map pyLowerChar⟩

/-- Python `str.strip()`: remove leading and trailing whitespace. -/
def pyStrip (s : String) : String :=
  ⟨((s.data.dropWhile Char.isWhitespace).reverse.dropWhile
      Char.isWhitespace).reverse⟩

/-- Python `int(s)` on a sheet cell: parses an optionally signed decimal
string (surrounding whitespace stripped), raising `ValueError` otherwise. -/
def pyInt (s : String) : Except PyErr Int :=
  match (pyStrip s).toInt? with
  | some n => .ok n
  | none => .error .valueError

/-- Function time_of_begining (src/google_sheets.py lines 543–578) given the
cached schedule rows: finds the first row whose lower-cased weekday name
equals the name of weekday `idx` and returns `int` of its opening cell;
returns Python `None` when no row matches (line 578). -/
def time_of_begining (records : List ScheduleRec) (idx : Nat) : Except PyErr PySchedVal :=
  match records.find? (fun r => pyLower r.weekday = weekday_names_ru.getD idx "") with
  | some r => (pyInt r.opening).map .pyint
  | none => .ok .pynone

/-! ## src/handlers/role.py — availability engine (lines 58–130) -/

/-- Configuration constant SLOT_INTERVAL_MIN (src/config.py line 39, env
default "30"). -/
def SLOT_INTERVAL_MIN : Nat := 30

/-- Two-digit zero-padded rendering of a number, as `f"{n:02d}"`. -/
def fmt02 (n : Nat) : String :=
  if n < 10 then "0" ++ toString n else toString n

/-- Method Role.all_time_slots (src/handlers/role.py lines 58–62):
`"HH:MM"` strings for every multiple of SLOT_INTERVAL_MIN minutes in
`range(0, 24*60, SLOT_INTERVAL_MIN)`. -/
def all_time_slots : List String :=
  (List.range' 0 (24 * 60 / SLOT_INTERVAL_MIN) SLOT_INTERVAL_MIN).map
    (fun minutes => fmt02 (minutes / 60) ++ ":" ++ fmt02 (minutes % 60))

/-- Expression `int(time_slot[:2])` (role.py lines 97, 110) on a slot
string. -/
def slot_hour (s : String) : Int :=
  ((s.take 2).toNat?).getD 0

/-- Expression `int(time_slot[:2]) * 60 + int(time_slot[3:])`
(role.py line 110). -/
def slot_minutes (s : String) : Int :=
  ((s.take 2).toNat?).getD 0 * 60 + (((s.drop 3).toNat?).getD 0)

/-- Booking record as seen by the availability engine: the `"Дата"` cell,
the `"Время"` cell and the `"Статус"` cell of a row of the List sheet. -/
structure ActiveBooking where
  date : String
  time : String
  status : String
  deriving DecidableEq, Repr

/-- Loop of free_times_for_date (src/handlers/role.py lines 95–117) over the
candidate slots.  For each slot, in source order: skip slots before the
opening hour (the `<` comparison may raise, lines 97–99), skip slots at or
after the closing hour (lines 101–103), skip occupied slots (line 105),
and for today skip slots whose minute of day has already passed (lines
108–113); surviving slots are appended in order. -/
def ftfd_loop (selected_date now_date now_minutes : Int)
    (existing : List String) (start_hour end_hour : PySchedVal) :
    List String → List String → Except PyErr (List String)
  | acc, [] => .ok acc.reverse
  | acc, slot :: rest =>
    match pyLtInt (slot_hour slot) start_hour with
    | .error e => .error e
    | .ok true => ftfd_loop selected_date now_date now_minutes existing
        start_hour end_hour acc rest
    | .ok false =>
      match pyGeInt (slot_hour slot) end_hour with
      | .error e => .error e
      | .ok true => ftfd_loop selected_date now_date now_minutes existing
          start_hour end_hour acc rest
      | .ok false =>
        if slot ∈ existing then
          ftfd_loop selected_date now_date now_minutes existing
            start_hour end_hour acc rest
        else if selected_date = now_date ∧ slot_minutes slot ≤ now_minutes then
          ftfd_loop selected_date now_date now_minutes existing
            start_hour end_hour acc rest
        else
          ftfd_loop selected_date now_date now_minutes existing
            start_hour end_hour (slot :: acc) rest

/-- Method Role.free_times_for_date (src/handlers/role.py lines 64–117).
`selected_date` is the `datetime.date` argument (a day number here);
`now_date`/`now_minutes` are the date and minute-of-day of
`datetime.now(МСК)` (line 80).  With `active_bookings = none` the code runs
`bookings = get_bookings(...)` (line 70) — an un-awaited coroutine — and
raises `TypeError` as soon as line 76 iterates it.  With a list passed in,
line 74 compares each record's date string with the `datetime.date` object
(`pyEqStrDate`, constantly false), and lines 89/92 bind `start_hour` and
`end_hour` to un-awaited coroutine objects, so the slot loop raises
`TypeError` at its first comparison. -/
def free_times_for_date (selected_date now_date now_minutes : Int)
    (active_bookings : Option (List ActiveBooking)) :
    Except PyErr (List String) :=
  match active_bookings with
  | none => .error .typeError
  | some lst =>
    let bookings := lst.filter (fun b => pyEqStrDate b.date selected_date)
    let existing := bookings.map (fun b => b.time)
    let start_hour : PySchedVal := .coroutine
    let end_hour : PySchedVal := .coroutine
    ftfd_loop selected_date now_date now_minutes existing start_hour end_hour
      [] all_time_slots

/-- Method Role.booking_window_dates (src/handlers/role.py lines 119–123):
14 consecutive days starting from the Monday of the current week
(`today - timedelta(days=today.weekday())`), restricted to days not before
today. -/
def booking_window_dates (today : Int) : List Int :=
  let start_of_week := today - today % 7
  ((List.range 14).map (fun i : Nat => start_of_week + (i : Int))).filter
    (fun d => decide (d ≥ today))

/-- Method Role.available_dates (src/handlers/role.py lines 125–130): the
dates of the booking window for which `free_times_for_date` yields a
non-empty slot list (a raise propagates). -/
def available_dates_go (today now_minutes : Int)
    (active_bookings : List ActiveBooking) :
    List Int → Except PyErr (List Int)
  | [] => .ok []
  | d :: rest =>
    match free_times_for_date d today now_minutes (some active_bookings) with
    | .error e => .error e
    | .ok slots =>
      match available_dates_go today now_minutes active_bookings rest with
      | .error e => .error e
      | .ok tail => .ok (if slots.isEmpty then tail else d :: tail)

/-- Method Role.available_dates (src/handlers/role.py lines 125–130),
entry point. -/
def available_dates (today now_minutes : Int)
    (active_bookings : List ActiveBooking) : Except PyErr (List Int) :=
  available_dates_go today now_minutes active_bookings
    (booking_window_dates today)

/-! ## src/handlers/user.py — per-day quota check (lines 337–348) -/

/-- Configuration constant MAX_SLOTS_PER_DAY (src/config.py line 38, env
default "3"). -/
def MAX_SLOTS_PER_DAY : Nat := 3

/-- Comprehension at src/handlers/user.py lines 337–341: the records of
`get_user_active_bookings(...)` whose `"Дата"` cell `==` the
`datetime.date` in `context["date"]` — a `str`-vs-`date` comparison, hence
always empty. -/
def bookings_same_day (records : List ActiveBooking) (selected_date : Int) :
    List ActiveBooking :=
  records.filter (fun r => pyEqStrDate r.date selected_date)

/-- Guard at src/handlers/user.py line 342:
`len(bookings_same_day) >= MAX_SLOTS_PER_DAY` decides whether the booking
request is refused. -/
def quota_rejects (records : List ActiveBooking) (selected_date : Int) : Bool :=
  decide ((bookings_same_day records selected_date).length ≥ MAX_SLOTS_PER_DAY)

/-- Quota step of handle_time (src/handlers/user.py lines 337–348) as
actually written: `get_user_active_bookings(message.from_id)` is called
without `await` (the handler is `async` but the call at line 339 is not
awaited), so the comprehension iterates a coroutine; with a real list the
filter and guard run. -/
def handle_time_quota (records : PyIter ActiveBooking) (selected_date : Int) :
    Except PyErr Bool :=
  match pyIterate records with
  | .error e => .error e
  | .ok l => .ok (quota_rejects l selected_date)

/-! ## datetime.strptime

CPython's `_strptime` compiles each format directive to a regular
expression: `%Y` matches exactly four digits, `%y` exactly two, and
`%d`/`%m`/`%H`/`%M` match one or two digits within their ranges (longest
first); the parsed fields are then validated by the `datetime` constructor
(day must fit the month).  The two formats the repository uses are
embedded below. -/

/-- Digit value of a character, if it is an ASCII digit. -/
def digitVal (c : Char) : Option Nat :=
  if c.isDigit then some (c.toNat - 48) else none

/-- Read exactly `n` digits as a number. -/
def readFixedDigits : Nat → List Char → Option (Nat × List Char)
  | 0, cs => some (0, cs)
  | _ + 1, [] => none
  | n + 1, c :: cs =>
    match digitVal c with
    | none => none
    | some d =>
      match readFixedDigits n cs with
      | none => none
      | some (v, rest) => some (d * 10 ^ n + v, rest)

/-- Read one or two digits yielding a value in `[lo, hi]`, preferring the
two-digit match, as the `%d`/`%m`/`%H`/`%M` regular expressions do. -/
def readNum2 (lo hi : Nat) : List Char → Option (Nat × List Char)
  | [] => none
  | [c] =>
    match digitVal c with
    | some d => if lo ≤ d ∧ d ≤ hi then some (d, []) else none
    | none => none
  | c₁ :: c₂ :: rest =>
    match digitVal c₁, digitVal c₂ with
    | some d₁, some d₂ =>
      let v := 10 * d₁ + d₂
      if lo ≤ v ∧ v ≤ hi then some (v, rest)
      else if lo ≤ d₁ ∧ d₁ ≤ hi then some (d₁, c₂ :: rest)
      else none
    | some d₁, none => if lo ≤ d₁ ∧ d₁ ≤ hi then some (d₁, c₂ :: rest) else none
    | none, _ => none

/-- Expect a literal character. -/
def expectChar (c : Char) : List Char → Option (List Char)
  | [] => none
  | x :: xs => if x = c then some xs else none

/-- Gregorian leap-year test. -/
def isLeap (y : Nat) : Bool :=
  y % 4 = 0 && (y % 100 ≠ 0 || y % 400 = 0)

/-- Number of days of month `m` in year `y` (the validation the `datetime`
constructor performs on strptime's parsed fields). -/
def days_in_month (y m : Nat) : Nat :=
  if m = 2 then (if isLeap y then 29 else 28)
  else if m = 4 ∨ m = 6 ∨ m = 9 ∨ m = 11 then 30
  else 31

/-- Parsed calendar timestamp (year, month, day, hour, minute). -/
structure PyDateTime where
  year : Nat
  month : Nat
  day : Nat
  hour : Nat
  minute : Nat
  deriving DecidableEq, Repr

/-- Chronological key of a parsed timestamp: `datetime` objects compare
lexicographically by (year, month, day, hour, minute). -/
def PyDateTime.key (t : PyDateTime) : Nat :=
  (((t.year * 13 + t.month) * 32 + t.day) * 24 + t.hour) * 60 + t.minute

/-- Embedding of `datetime.strptime(s, "%Y-%m-%d %H:%M")`
(src/notifications.py lines 51–53 and 120–122): four-digit year, dashes,
1–2 digit month/day in range, a space, 1–2 digit hour/minute in range,
nothing left over, day valid for the month.  Returns `none` where CPython
raises `ValueError`. -/
def strptime_iso (s : String) : Option PyDateTime := do
  let (y, cs) ← readFixedDigits 4 s.toList
  let cs ← expectChar '-' cs
  let (m, cs) ← readNum2 1 12 cs
  let cs ← expectChar '-' cs
  let (d, cs) ← readNum2 1 31 cs
  let cs ← expectChar ' ' cs
  let (h, cs) ← readNum2 0 23 cs
  let cs ← expectChar ':' cs
  let (mi, cs) ← readNum2 0 59 cs
  if cs = [] ∧ d ≤ days_in_month y m then
    some ⟨y, m, d, h, mi⟩
  else
    none

/-- Embedding of `datetime.strptime(s, DATETIME_FORMAT)` with
`DATETIME_FORMAT = "%d.%m.%y %H:%M"` (src/config.py line 49, used by
`get_cached_bookings` at src/cache.py lines 342–347): 1–2 digit day and
month, two-digit year (`%y`: 00–68 ↦ 2000–2068, 69–99 ↦ 1969–1999), a
space, 1–2 digit hour and minute, nothing left over, day valid for the
month. -/
def strptime_ru (s : String) : Option PyDateTime := do
  let (d, cs) ← readNum2 1 31 s.toList
  let cs ← expectChar '.' cs
  let (m, cs) ← readNum2 1 12 cs
  let cs ← expectChar '.' cs
  let (y2, cs) ← readFixedDigits 2 cs
  let cs ← expectChar ' ' cs
  let (h, cs) ← readNum2 0 23 cs
  let cs ← expectChar ':' cs
  let (mi, cs) ← readNum2 0 59 cs
  let y := if y2 ≤ 68 then 2000 + y2 else 1900 + y2
  if cs = [] ∧ d ≤ days_in_month y m then
    some ⟨y, m, d, h, mi⟩
  else
    none

/-! ## src/cache.py — `get_cached_bookings` (lines 305–349) -/

/-- Booking row as consumed by `get_cached_bookings`: the relevant cells of
a record plus its `"_row"` handle (which also serves as identity). -/
structure BookingRec where
  row : Nat
  date : String
  time : String
  user_id : String
  status : String
  deriving DecidableEq, Repr

/-- Filters of get_cached_bookings (src/cache.py lines 330–339), applied in
source order.  `if date:` and `if statuses:` are Python truthiness tests, so
an empty string or an empty tuple filters nothing; `if user_id is not None:`
compares the stringified id. -/
def filter_bookings (l : List BookingRec) (date : Option String)
    (user_id : Option Int) (statuses : Option (List String)) :
    List BookingRec :=
  let l₁ := match date with
    | some d => if d = "" then l else l.filter (fun b => b.date = d)
    | none => l
  let l₂ := match user_id with
    | some uid => l₁.filter (fun b => b.user_id = toString uid)
    | none => l₁
  match statuses with
  | some sts => if sts.isEmpty then l₂ else l₂.filter (fun b => b.status ∈ sts)
  | none => l₂

/-- Sort key of get_cached_bookings (src/cache.py lines 342–347):
`datetime.strptime(r.get("Дата").strip() + " " + r.get("Время").strip(),
DATETIME_FORMAT)`, as a chronological key; `none` when strptime raises. -/
def booking_sort_key (b : BookingRec) : Option Nat :=
  (strptime_ru (pyStrip b.date ++ " " ++ pyStrip b.time)).map PyDateTime.key

/-- Function get_cached_bookings (src/cache.py lines 305–349) given the
cached bulk list (`none` models a cache miss with a loader returning
`None`, lines 327–328): applies the date/user/status filters, then sorts
ascending by the parsed date-time key (Python `list.sort(key=...)`
computes every key first, so one malformed record raises `ValueError`
before anything is returned). -/
def get_cached_bookings (all_bookings : Option (List BookingRec))
    (date : Option String) (user_id : Option Int)
    (statuses : Option (List String)) : Except PyErr (List BookingRec) :=
  match all_bookings with
  | none => .ok []
  | some l =>
    let filtered := filter_bookings l date user_id statuses
    if filtered.all (fun b => (booking_sort_key b).isSome) then
      .ok (filtered.mergeSort
        (fun a b => (booking_sort_key a).getD 0 ≤ (booking_sort_key b).getD 0))
    else
      .error .valueError

/-! ## src/notifications.py — the overdue-booking sweep (lines 108–143) -/

/-- Confirmed booking row as consumed by the sweep: the `"_row"` handle and
the date and time cells. -/
structure ConfirmedRec where
  row : Nat
  date : String
  time : String
  deriving DecidableEq, Repr

/-- What the sweep does with one booking record. -/
inductive SweepAction where
  | skip
  | deleted
  deriving DecidableEq, Repr

/-- Body of the sweep loop for one record not yet processed today
(src/notifications.py lines 118–143): `strptime(f"{Дата} {Время}",
"%Y-%m-%d %H:%M")` — a `ValueError` is caught and the record skipped
(lines 119–124); when parsing succeeds, line 127 evaluates
`datetime.timedelta(...)`, but the module-level
`from datetime import datetime, ...` (line 9) shadowed the `datetime`
module with the class, so the attribute lookup raises `AttributeError`,
which no handler in the loop catches.  The `now > booking_end_time`
deletion at lines 130–132 is therefore unreachable. -/
def sweep_body (b : ConfirmedRec) : Except PyErr SweepAction :=
  match strptime_iso (b.date ++ " " ++ b.time) with
  | none => .ok .skip
  | some _ => .error .attributeError

/-- Sweep loop (src/notifications.py lines 113–143) over the fetched
confirmed bookings, skipping rows already processed by the today-loop;
returns the rows it deletes. -/
def sweep_go (processed_today : List Nat) :
    List ConfirmedRec → Except PyErr (List Nat)
  | [] => .ok []
  | b :: rest =>
    if b.row ∈ processed_today then sweep_go processed_today rest
    else
      match sweep_body b with
      | .error e => .error e
      | .ok .skip => sweep_go processed_today rest
      | .ok .deleted =>
        match sweep_go processed_today rest with
        | .error e => .error e
        | .ok tail => .ok (b.row :: tail)

/-- Sweep of the notification loop (src/notifications.py lines 108–143):
`all_confirmed = get_bookings(statuses={STATUS_CONFIRMED})` at line 110 is
*not* awaited, so the value iterated at line 113 is a coroutine object and
the iteration raises `TypeError`; given an actual list the loop body runs
as `sweep_go`. -/
def sweep_run (all_confirmed : PyIter ConfirmedRec)
    (processed_today : List Nat) : Except PyErr (List Nat) :=
  match pyIterate all_confirmed with
  | .error e => .error e
  | .ok l => sweep_go processed_today l

/-! ## src/cache.py — `Cache.get` under asyncio concurrency (lines 66–180)

A small-step model of `n` coroutines concurrently running
`Cache.get(key, loader)` for one key on one shared `Cache`, faithful to
CPython's asyncio event loop:

* a task runs atomically from one suspension point to the next (the event
  loop is single-threaded and only switches tasks at `await`s that actually
  suspend);
* `self._lock` is *never contended* in this code — every `async with
  self._lock` block in src/cache.py contains no `await`, so the lock is
  always free whenever a task is at a suspension point and acquiring it
  never yields; the lock therefore needs no explicit state;
* consequently a caller's first slice runs from line 85 to whichever of
  these comes first: returning a live entry (lines 86–87), awaiting an
  unfinished pending task (line 110), or creating its own load task
  (line 129) and awaiting it (line 134); `await` on an already-finished
  task does not suspend;
* `asyncio.create_task` (line 129) appends the new task to the ready queue;
  a finished task wakes its awaiters in the order they began awaiting;
* the loader itself runs in an executor (line 164) and is slow: its future
  resolves only when the ready queue has drained (`step` resolves the
  oldest outstanding loader future exactly when no task is runnable), and
  `behavior i` gives the outcome of the `i`-th loader invocation.
-/

/-- Task identifier: the `i`-th concurrent `get` caller, or the `j`-th
`_load_and_cache` task created by `asyncio.create_task` at line 129. -/
inductive Tid where
  | caller (i : Nat)
  | loadtask (j : Nat)
  deriving DecidableEq, Repr

/-- Where a `get` caller currently is. -/
inductive CallerPC where
  | start
  | waitingOther (j : Nat)
  | waitingOwn (j : Nat)
  | done (r : Except Nat Nat)
  deriving DecidableEq, Repr

/-- Where a `_load_and_cache` task currently is: just created (line 129);
suspended on the executor future of its loader invocation (line 164);
woken with the loader's outcome; finished with its task result. -/
inductive LoadPhase where
  | created
  | waitingExec
  | execDone (out : Except Nat Nat)
  | finished
  deriving DecidableEq, Repr

/-- State of one `_load_and_cache` task: its phase, the invocation index of
its loader call, its task result once finished, and the tasks awaiting it,
in the order they began awaiting. -/
structure LoadTask where
  phase : LoadPhase
  inv : Nat
  result : Option (Except Nat Nat)
  waiters : List Tid
  deriving DecidableEq, Repr

/-- Placeholder load task for out-of-range list reads (never hit in a run
started from `init_state`). -/
def LoadTask.dummy : LoadTask := ⟨.finished, 0, none, []⟩

/-- Global state of the event-loop model: the wall clock (`time.time()`,
frozen during the scenario), the cache-wide default TTL, the single key's
entry, the `_pending` registration for the key, every caller's and load
task's state, the ready queue, and the number of loader invocations so
far. -/
structure SimState where
  now : Int
  default_ttl : Option Int
  cache : Option CacheEntry
  pending : Option Nat
  callers : List CallerPC
  loaders : List LoadTask
  ready : List Tid
  calls : Nat
  deriving DecidableEq, Repr

/-- Record caller `i`'s new program point. -/
def setCaller (s : SimState) (i : Nat) (pc : CallerPC) : SimState :=
  { s with callers := s.callers.set i pc }

/-- Lines 122–134: caller `i` creates `load_task =
asyncio.create_task(self._load_and_cache(...))`, registers it in
`self._pending[key]`, and suspends on `await load_task` (so it is the
task's first awaiter). -/
def spawn_load (s : SimState) (i : Nat) : SimState :=
  let j := s.loaders.length
  { s with
    loaders := s.loaders ++ [⟨.created, 0, none, [Tid.caller i]⟩],
    pending := some j,
    ready := s.ready ++ [Tid.loadtask j],
    callers := s.callers.set i (.waitingOwn j) }

/-- Lines 113–134, run when caller `i` resumes from `await
self._pending[key]` (any exception of the awaited task was swallowed at
lines 111–112), or reaches them directly because the awaited task had
already finished: if the key now has *any* entry its data is returned
(line 116 when live, line 119 when stale); otherwise the caller proceeds to
the third-check block and starts its own load — line 122 re-checks the
cache but *not* `_pending`. -/
def caller_after_await (s : SimState) (i : Nat) : SimState :=
  match s.cache with
  | some e => setCaller s i (.done (.ok e.data))
  | none => spawn_load s i

/-- Lines 94–134 for caller `i` when the fast check failed: under the lock
the second check repeats the fast check on the same state; if a load is
pending and unfinished the caller awaits it (line 110), if it is pending
but already finished the `await` returns at once and the caller continues
at line 114; with no pending load the caller spawns its own. -/
def caller_miss_path (s : SimState) (i : Nat) : SimState :=
  match s.pending with
  | some j =>
    match (s.loaders.getD j LoadTask.dummy).result with
    | some _ => caller_after_await s i
    | none =>
      let t := s.loaders.getD j LoadTask.dummy
      { s with
        loaders := s.loaders.set j { t with waiters := t.waiters ++ [Tid.caller i] },
        callers := s.callers.set i (.waitingOther j) }
  | none => spawn_load s i

/-- First slice of caller `i` (lines 85–134): the fast check returns a live
entry immediately, otherwise the miss path runs.  (All scenario callers
pass a loader, so lines 90–91 do not apply.) -/
def run_caller_start (s : SimState) (i : Nat) : SimState :=
  match s.cache with
  | some e =>
    if !(e.is_expired s.now) then setCaller s i (.done (.ok e.data))
    else caller_miss_path s i
  | none => caller_miss_path s i

/-- Run the scheduled slice of caller `i`.  A caller scheduled at
`waitingOwn j` has been woken by task `j` finishing: `await load_task`
yields the task's result (or re-raises its exception) and the `finally`
block (lines 135–138) pops the key from `_pending` — by key, not by task
identity. -/
def run_caller (s : SimState) (i : Nat) : SimState :=
  match s.callers.getD i .start with
  | .start => run_caller_start s i
  | .waitingOther _ => caller_after_await s i
  | .waitingOwn j =>
    let r := (s.loaders.getD j LoadTask.dummy).result.getD (.error 0)
    { s with pending := none, callers := s.callers.set i (.done r) }
  | .done _ => s

/-- Task `j` finishes with result `r`: its awaiters are moved to the ready
queue in FIFO order. -/
def finish_load (s : SimState) (j : Nat) (r : Except Nat Nat) : SimState :=
  let t := s.loaders.getD j LoadTask.dummy
  { s with
    loaders := s.loaders.set j ⟨.finished, t.inv, some r, []⟩,
    ready := s.ready ++ t.waiters }

/-- Run the scheduled slice of load task `j` (`_load_and_cache`, lines
140–180).  Its first slice reaches the loader invocation (line 164) and
suspends on the executor future, recording the invocation index.  Once the
future resolves the task resumes: on success it stores the new entry with
the resolved TTL (here the call-site `ttl=None`, so the cache default,
lines 174–178) and returns the data; on failure it returns the previous
entry's data if one exists (lines 165–171) and otherwise re-raises
(line 172). -/
def run_load (s : SimState) (j : Nat) : SimState :=
  let t := s.loaders.getD j LoadTask.dummy
  match t.phase with
  | .created =>
    { s with
      loaders := s.loaders.set j { t with phase := .waitingExec, inv := s.calls },
      calls := s.calls + 1 }
  | .waitingExec => s
  | .execDone out =>
    match out with
    | .ok v => finish_load { s with cache := some ⟨v, s.now, s.default_ttl⟩ } j (.ok v)
    | .error e =>
      match s.cache with
      | some old => finish_load s j (.ok old.data)
      | none => finish_load s j (.error e)
  | .finished => s

/-- Index of the oldest load task still waiting on its executor future. -/
def find_waiting_exec : List LoadTask → Option Nat
  | [] => none
  | t :: ts =>
    if t.phase = .waitingExec then some 0
    else (find_waiting_exec ts).map (· + 1)

/-- Resolve the executor future of load task `j` with the outcome of its
loader invocation, waking the task. -/
def resolve_load (behavior : Nat → Except Nat Nat) (s : SimState) (j : Nat) :
    SimState :=
  let t := s.loaders.getD j LoadTask.dummy
  { s with
    loaders := s.loaders.set j { t with phase := .execDone (behavior t.inv) },
    ready := s.ready ++ [Tid.loadtask j] }

/-- One step of the event loop: run the head of the ready queue to its next
suspension point; with no runnable task, resolve the oldest outstanding
loader future (the loaders are slower than any scheduling activity); with
neither, the run is over and the state is fixed. -/
def step (behavior : Nat → Except Nat Nat) (s : SimState) : SimState :=
  match s.ready with
  | t :: rest =>
    let s' := { s with ready := rest }
    match t with
    | .caller i => run_caller s' i
    | .loadtask j => run_load s' j
  | [] =>
    match find_waiting_exec s.loaders with
    | some j => resolve_load behavior s j
    | none => s

/-- Run the event loop for `fuel` steps. -/
def sim_run (behavior : Nat → Except Nat Nat) (fuel : Nat) (s : SimState) :
    SimState :=
  (step behavior)^[fuel] s

/-- Initial state: `n` concurrent callers of `Cache.get(key, loader)` about
to run, none scheduled yet, in caller order; the key holds `cache`
(no live entry in the claims' scenarios); the cache uses the production
default TTL of 300 seconds (src/config.py line 56, src/cache.py line 53). -/
def init_state (n : Nat) (cache : Option CacheEntry) : SimState :=
  { now := 0, default_ttl := some 300, cache := cache, pending := none,
    callers := List.replicate n .start,
    loaders := [], ready := (List.range n).map .caller, calls := 0 }

/-- Intermediate state of the canonical run of `n = 1 + k + r` concurrent
callers on a key with no live entry (the key holds `c`: nothing, or an
expired entry): caller 0 has spawned load task 0 and awaits it, callers
`1..k` have joined as waiters, callers `k+1..k+r` are still to run their
first slice, and the load task itself has not yet run. -/
def stateB (c : Option CacheEntry) (k r : Nat) : SimState :=
  { now := 0, default_ttl := some 300, cache := c, pending := some 0,
    callers := .waitingOwn 0 ::
      (List.replicate k (.waitingOther 0) ++ List.replicate r .start),
    loaders := [⟨.created, 0, none,
      .caller 0 :: (List.range' 1 k).map .caller⟩],
    ready := ((List.range' (k + 1) r).map .caller) ++ [.loadtask 0],
    calls := 0 }

/-- Intermediate state of the canonical run after the single load task
finished with task result `.ok w` leaving the key holding `c` — on loader
success `w` is the fresh value and `c` the fresh entry, on loader failure
with a previous entry `w` is that entry's stale data and `c` the untouched
old entry.  Callers `0..k-1` are done with `.ok w`, callers `k..k+r-1`
have been woken and are scheduled to resume. -/
def stateG (c : Option CacheEntry) (w k r : Nat) : SimState :=
  { now := 0, default_ttl := some 300, cache := c,
    pending := none,
    callers := List.replicate k (.done (.ok w)) ++
      List.replicate r (.waitingOther 0),
    loaders := [⟨.finished, 0, some (.ok w), []⟩],
    ready := (List.range' k r).map .caller,
    calls := 1 }

/-! # Theorems -/

/-- Claim C2: if `Cache.get` runs a loader that raises while a previous
entry for the key exists (here necessarily an expired one, since a live
entry would have been returned without running the loader), `get` returns
the previous entry's value instead of raising and leaves the entry in
place; if no previous entry exists, the loader's failure propagates to the
caller.  In both cases the loader ran exactly once. -/
theorem c2_loader_failure_fallback :
    (∀ (e : CacheEntry) (now : Int) (err : Nat) (ttl default_ttl : Option Int),
        e.is_expired now = true →
        cache_get_solo (some e) now (some (.error err)) ttl default_ttl =
          (.ok (some e.data), some e, 1)) ∧
    (∀ (now : Int) (err : Nat) (ttl default_ttl : Option Int),
        cache_get_solo none now (some (.error err)) ttl default_ttl =
          (.error err, none, 1)) := by
  constructor
  · intro e now err ttl default_ttl h
    simp [cache_get_solo, load_and_cache, h, Except.map]
  · intro now err ttl default_ttl
    simp [cache_get_solo, load_and_cache, Except.map]

/-- Witness for C2: an entry of value 42 created at time 0 with TTL 5 is
expired at time 6; a failing loader then yields the stale 42. -/
theorem c2_loader_failure_fallback_witness :
    CacheEntry.is_expired ⟨42, 0, some 5⟩ 6 = true ∧
    cache_get_solo (some ⟨42, 0, some 5⟩) 6 (some (.error 3)) none (some 300) =
      (.ok (some 42), some ⟨42, 0, some 5⟩, 1) :=
  ⟨by decide,
   c2_loader_failure_fallback.1 ⟨42, 0, some 5⟩ 6 3 none (some 300) (by decide)⟩

/-- Claim C3: a `get` issued while the cached entry is younger than its TTL
returns the cached value with no loader invocation and leaves the cache
unchanged; a `get` issued after the TTL has elapsed invokes its loader
exactly once and caches the new result (with the resolved TTL, here the
cache-wide default since the call passes none). -/
theorem c3_ttl_expiry :
    (∀ (v : Nat) (created t now : Int) (out : Except Nat Nat)
        (ttl default_ttl : Option Int),
        now - created < t →
        cache_get_solo (some ⟨v, created, some t⟩) now (some out) ttl default_ttl =
          (.ok (some v), some ⟨v, created, some t⟩, 0)) ∧
    (∀ (v r₂ : Nat) (created t now : Int) (default_ttl : Option Int),
        now - created > t →
        cache_get_solo (some ⟨v, created, some t⟩) now (some (.ok r₂)) none default_ttl =
          (.ok (some r₂), some ⟨r₂, now, default_ttl⟩, 1)) := by
  constructor
  · intro v created t now out ttl default_ttl h
    have hx : CacheEntry.is_expired ⟨v, created, some t⟩ now = false := by
      simp [CacheEntry.is_expired]
      omega
    simp [cache_get_solo, hx]
  · intro v r₂ created t now default_ttl h
    have hx : CacheEntry.is_expired ⟨v, created, some t⟩ now = true := by
      simp [CacheEntry.is_expired]
      omega
    simp [cache_get_solo, hx, load_and_cache, Except.map]

/-- Witness for C3, the spec's scenario: TTL 5, entry R1 = 1 cached at
t = 0; a get at t = 3 returns R1 without invoking its loader; a get at
t = 6 invokes its loader (result R2 = 2) exactly once and caches it. -/
theorem c3_ttl_expiry_witness :
    (3 : Int) - 0 < 5 ∧
    cache_get_solo (some ⟨1, 0, some 5⟩) 3 (some (.ok 2)) none (some 300) =
      (.ok (some 1), some ⟨1, 0, some 5⟩, 0) ∧
    (6 : Int) - 0 > 5 ∧
    cache_get_solo (some ⟨1, 0, some 5⟩) 6 (some (.ok 2)) none (some 300) =
      (.ok (some 2), some ⟨2, 6, some 300⟩, 1) :=
  ⟨by decide,
   c3_ttl_expiry.1 1 0 5 3 (.ok 2) none (some 300) (by decide),
   by decide,
   c3_ttl_expiry.2 1 2 0 5 6 (some 300) (by decide)⟩

/-- Claim C8: for a loader wrapped by `with_retries` (default retries = 5,
base delay 0.5 s): if invocation `k` (0-based, `k < 5`) succeeds after `k`
failures, the wrapper returns that result after exactly `k + 1` loader
invocations, having slept `0.5 · 2^i` seconds before the `i`-th retry; if
all 5 invocations raise, the wrapper has invoked the loader exactly 5 times,
slept 0.5, 1, 2, 4 seconds between them, and re-raises the last
exception. -/
theorem c8_with_retries :
    (∀ (f : Nat → Except Nat Nat) (k v : Nat),
        k < 5 → f k = .ok v → (∀ j, j < k → ∃ e, f j = .error e) →
        with_retries_run f =
          ⟨.ok v, k + 1, (List.range k).map (fun i => (1 / 2 : ℚ) * 2 ^ i)⟩) ∧
    (∀ (f : Nat → Except Nat Nat) (es : Nat → Nat),
        (∀ j, j < 5 → f j = .error (es j)) →
        with_retries_run f =
          ⟨.error (es 4), 5, [1 / 2, 1, 2, 4]⟩) := by
  constructor
  · intro f k v hk hfk hfj
    interval_cases k
    · simp [with_retries_run, with_retries_go, hfk]
    · obtain ⟨e₀, h₀⟩ := hfj 0 (by omega)
      simp [with_retries_run, with_retries_go, hfk, h₀]
      norm_num [List.range_succ]
    · obtain ⟨e₀, h₀⟩ := hfj 0 (by omega)
      obtain ⟨e₁, h₁⟩ := hfj 1 (by omega)
      simp [with_retries_run, with_retries_go, hfk, h₀, h₁]
      norm_num [List.range_succ]
    · obtain ⟨e₀, h₀⟩ := hfj 0 (by omega)
      obtain ⟨e₁, h₁⟩ := hfj 1 (by omega)
      obtain ⟨e₂, h₂⟩ := hfj 2 (by omega)
      simp [with_retries_run, with_retries_go, hfk, h₀, h₁, h₂]
      norm_num [List.range_succ]
    · obtain ⟨e₀, h₀⟩ := hfj 0 (by omega)
      obtain ⟨e₁, h₁⟩ := hfj 1 (by omega)
      obtain ⟨e₂, h₂⟩ := hfj 2 (by omega)
      obtain ⟨e₃, h₃⟩ := hfj 3 (by omega)
      simp [with_retries_run, with_retries_go, hfk, h₀, h₁, h₂, h₃]
      norm_num [List.range_succ]
  · intro f es h
    have h₀ := h 0 (by omega)
    have h₁ := h 1 (by omega)
    have h₂ := h 2 (by omega)
    have h₃ := h 3 (by omega)
    have h₄ := h 4 (by omega)
    simp [with_retries_run, with_retries_go, h₀, h₁, h₂, h₃, h₄]
    norm_num [List.range_succ]

/-- Helper: free_times_for_date raises `TypeError` on every input — with no
bookings passed it iterates the un-awaited `get_bookings(...)` coroutine
(role.py line 70/76), and with bookings passed the slot loop's first
comparison `slot_hour < start_hour` (line 98) compares an `int` with the
un-awaited `time_of_begining(...)` coroutine (line 89). -/
theorem free_times_for_date_raises (selected_date now_date now_minutes : Int)
    (active_bookings : Option (List ActiveBooking)) :
    free_times_for_date selected_date now_date now_minutes active_bookings =
      .error .typeError := by
  cases active_bookings <;> rfl

/-- Witness for C8: a loader failing twice then succeeding returns after 3
invocations with sleeps 0.5 s and 1 s; a loader failing 5 times gives 5
invocations, sleeps 0.5, 1, 2, 4 and the last exception. -/
theorem c8_with_retries_witness :
    with_retries_run (fun i => if i = 2 then .ok 9 else .error i) =
      ⟨.ok 9, 3, [1 / 2, 1]⟩ ∧
    with_retries_run (fun i => .error (10 + i)) = ⟨.error 14, 5, [1 / 2, 1, 2, 4]⟩ := by
  constructor
  · have h := c8_with_retries.1 (fun i => if i = 2 then .ok 9 else .error i) 2 9
      (by omega) (by simp) (by intro j hj; exact ⟨j, by simp; omega⟩)
    have hl : (List.range 2).map (fun i => (1 / 2 : ℚ) * 2 ^ i) = [1 / 2, 1] := by
      norm_num [List.range_succ]
    rw [hl] at h
    exact h
  · have := c8_with_retries.2 (fun i => .error (10 + i)) (fun i => 10 + i)
      (fun j _ => rfl)
    simpa using this

/-- Claim C4 is violated by the code (code bug): when the caller passes
`active_bookings` in, role.py line 74 compares each record's `"Дата"` string
with the `datetime.date` object `selected_date`, which in Python is always
false, so an occupied slot is never placed in the exclusion set — here a
Pending booking at "10:00" on Tuesday 14.10.25 (day number 1, weekday 1)
leaves the exclusion set (`existing`, lines 72–76) empty; and in fact
`free_times_for_date` never returns a slot list at all, because the
un-awaited schedule coroutines make its slot loop raise `TypeError`. -/
theorem c4_slot_exclusivity_bug :
    (([⟨"14.10.25", "10:00", "На подтверждении"⟩] : List ActiveBooking).filter
        (fun b => pyEqStrDate b.date 1)).map (fun b => b.time) = [] ∧
    free_times_for_date 1 1 600
        (some [⟨"14.10.25", "10:00", "На подтверждении"⟩]) =
      .error .typeError :=
  ⟨rfl, free_times_for_date_raises 1 1 600 _⟩

/-- Claim C5 is violated by the code (code bug): the quota step of
handle_time (user.py lines 337–348) first calls
`get_user_active_bookings(...)` without `await`, so iterating it raises
`TypeError`; and even given the record list, the comprehension compares
each `"Дата"` string with the `datetime.date` `selected_date`, so with
MAX_SLOTS_PER_DAY = 3 a requester holding 3 active bookings on the selected
day (Monday 13.10.25, day number 0) yields an empty same-day list and the
refusal guard stays false. -/
theorem c5_quota_bug :
    handle_time_quota PyIter.coroutine 0 = .error .typeError ∧
    bookings_same_day
      [⟨"13.10.25", "10:00", "На подтверждении"⟩,
       ⟨"13.10.25", "11:00", "На подтверждении"⟩,
       ⟨"13.10.25", "12:00", "Подтвержден"⟩] 0 = [] ∧
    quota_rejects
      [⟨"13.10.25", "10:00", "На подтверждении"⟩,
       ⟨"13.10.25", "11:00", "На подтверждении"⟩,
       ⟨"13.10.25", "12:00", "Подтвержден"⟩] 0 = false :=
  ⟨rfl, rfl, rfl⟩

/-- Claim C6 is violated by the code (code bug): the sweep fetches
`all_confirmed` without `await`, so iterating it raises `TypeError`
(first conjunct); and even given the records, the sweep parses
`f"{Дата} {Время}"` with format `"%Y-%m-%d %H:%M"` while the bot stores
dates as `"%d.%m.%y"`, so parsing a Confirmed booking at 13.10.25 08:00 —
overdue by any measure at 10:05 the same day — fails and the record is
skipped instead of deleted (second and third conjuncts: nothing is ever
deleted). -/
theorem c6_sweep_bug :
    sweep_run PyIter.coroutine [] = .error .typeError ∧
    strptime_iso "13.10.25 08:00" = none ∧
    sweep_run (.list [⟨2, "13.10.25", "08:00"⟩]) [] = .ok [] :=
  ⟨rfl, by decide, by decide⟩

/-- Claim C7 is violated by the code (code bug): for a weekday with no
schedule row, `time_of_begining` returns Python `None`
(google_sheets.py line 578) — here a schedule holding only Monday, queried
for Tuesday (idx 1) — and comparing an `int` slot hour with `None` raises
`TypeError`; moreover as written `free_times_for_date` raises `TypeError`
for *every* date because the schedule lookups are never awaited, so the
day is never reported as an empty slot list. -/
theorem c7_missing_weekday_bug :
    time_of_begining [⟨"понедельник", "9", "18"⟩] 1 = .ok .pynone ∧
    pyLtInt 0 .pynone = .error .typeError ∧
    free_times_for_date 1 1 600 (some []) = .error .typeError :=
  ⟨by decide, rfl, free_times_for_date_raises 1 1 600 _⟩

/-- Claim C9 as stated is false: it asserts the candidate window is "today
through the next 13 days", so for today = 6 (a Sunday) the date
today + 13 = 19 would be a candidate; `booking_window_dates` actually
builds the window from the *Monday of the current week*, so on a Sunday it
holds only 8 days and 19 is absent.  Also `available_dates` never returns
a date list at all — it raises `TypeError` (un-awaited coroutines in
`free_times_for_date`). -/
theorem c9_window_counterexample :
    ¬ ((6 : Int) + 13 ∈ booking_window_dates 6) ∧
    available_dates 6 0 [] = .error .typeError :=
  ⟨by decide, rfl⟩

/-- Claim C9, amended: the candidate window computed by
`booking_window_dates` consists of the days of the current Monday-based
calendar week and the following week that are not before today — i.e.
`d` is a candidate iff `today ≤ d < monday_of_week(today) + 14`; hence
every candidate (and so every date `available_dates` could return) is at
least today and at most today + 13 (the bound today + 13 is attained only
on Mondays); and `available_dates` as written raises `TypeError` for every
input instead of returning the dates with a free slot, because
`free_times_for_date` compares slot hours against un-awaited coroutines. -/
theorem c9_window_amended :
    (∀ today d : Int, d ∈ booking_window_dates today ↔
        today ≤ d ∧ d < today - today % 7 + 14) ∧
    (∀ today d : Int, d ∈ booking_window_dates today →
        today ≤ d ∧ d ≤ today + 13) ∧
    (∀ (today now_minutes : Int) (bks : List ActiveBooking),
        available_dates today now_minutes bks = .error .typeError) := by
  have hmem : ∀ today d : Int, d ∈ booking_window_dates today ↔
      today ≤ d ∧ d < today - today % 7 + 14 := by
    intro today d
    simp only [booking_window_dates, List.mem_filter, List.mem_map,
      List.mem_range, decide_eq_true_eq]
    constructor
    · rintro ⟨⟨i, hi, rfl⟩, h₂⟩
      omega
    · rintro ⟨h₁, h₂⟩
      refine ⟨⟨(d - (today - today % 7)).toNat, ?_, ?_⟩, h₁⟩ <;> omega
  refine ⟨hmem, ?_, ?_⟩
  · intro today d hd
    have h := (hmem today d).mp hd
    have h7 : 0 ≤ today % 7 := Int.emod_nonneg today (by omega)
    omega
  · intro today now_minutes bks
    have htoday : today ∈ booking_window_dates today := by
      rw [hmem today today]
      have h7 : 0 ≤ today % 7 := Int.emod_nonneg today (by omega)
      have h7' : today % 7 < 7 := Int.emod_lt_of_pos today (by omega)
      omega
    rcases hbw : booking_window_dates today with _ | ⟨d, rest⟩
    · rw [hbw] at htoday
      simp at htoday
    · simp [available_dates, hbw, available_dates_go,
        free_times_for_date_raises]

/-- Witness for C9 (amended): with today = 6 (a Sunday), 7 is a candidate
date, it satisfies the window bounds, and `available_dates` raises. -/
theorem c9_window_amended_witness :
    ((7 : Int) ∈ booking_window_dates 6 ↔ (6 : Int) ≤ 7 ∧ (7 : Int) < 6 - 6 % 7 + 14) ∧
    ((6 : Int) ≤ 7 ∧ (7 : Int) ≤ 6 + 13) ∧
    available_dates 6 0 [] = .error .typeError :=
  ⟨c9_window_amended.1 6 7,
   c9_window_amended.2.1 6 7 (by decide),
   c9_window_amended.2.2 6 0 []⟩

/-- Claim C10: when every filter-matching record carries well-formed
`"%d.%m.%y"` date and `"%H:%M"` time cells, `get_cached_bookings` returns
exactly the filter-matching records (a permutation of the filtered list),
sorted ascending by their parsed (date, time); when some matching record
has a malformed date or time cell, the call raises `ValueError` instead of
returning a list. -/
theorem c10_sorted_bookings :
    (∀ (l : List BookingRec) (date : Option String) (user_id : Option Int)
        (statuses : Option (List String)),
        (∀ b ∈ filter_bookings l date user_id statuses,
            (booking_sort_key b).isSome) →
        ∃ out, get_cached_bookings (some l) date user_id statuses = .ok out ∧
          out.Perm (filter_bookings l date user_id statuses) ∧
          out.Pairwise (fun a b =>
            (booking_sort_key a).getD 0 ≤ (booking_sort_key b).getD 0)) ∧
    (∀ (l : List BookingRec) (date : Option String) (user_id : Option Int)
        (statuses : Option (List String)),
        (∃ b ∈ filter_bookings l date user_id statuses,
            booking_sort_key b = none) →
        get_cached_bookings (some l) date user_id statuses =
          .error .valueError) := by
  constructor
  · intro l date user_id statuses h
    have hall : ((filter_bookings l date user_id statuses).all
        (fun b => (booking_sort_key b).isSome)) = true := by
      rw [List.all_eq_true]
      intro b hb
      exact h b hb
    refine ⟨(filter_bookings l date user_id statuses).mergeSort
        (fun a b => decide ((booking_sort_key a).getD 0 ≤
          (booking_sort_key b).getD 0)),
      ?_, List.mergeSort_perm _ _, ?_⟩
    · simp [get_cached_bookings, hall]
    · have hs := @List.sorted_mergeSort BookingRec
        (fun a b => decide ((booking_sort_key a).getD 0 ≤
          (booking_sort_key b).getD 0))
        (fun a b c hab hbc => by
          simp only [decide_eq_true_eq] at *
          omega)
        (fun a b => by
          simp only [Bool.or_eq_true, decide_eq_true_eq]
          omega)
        (filter_bookings l date user_id statuses)
      exact hs.imp (fun hab => by simpa using hab)
  · intro l date user_id statuses h
    obtain ⟨b, hb, hnone⟩ := h
    have hall : ((filter_bookings l date user_id statuses).all
        (fun b => (booking_sort_key b).isSome)) = false := by
      rw [List.all_eq_false]
      exact ⟨b, hb, by simp [hnone]⟩
    simp [get_cached_bookings, hall]

/-- Witness for C10: two well-formed records given in reverse chronological
order come back sorted (and as a permutation of the input); a record whose
date cell is ISO-formatted makes the call raise `ValueError`. -/
theorem c10_sorted_bookings_witness :
    (∃ out,
      get_cached_bookings
          (some [⟨2, "14.10.25", "10:00", "1", "Подтвержден"⟩,
                 ⟨3, "13.10.25", "12:30", "2", "На подтверждении"⟩])
          none none none = .ok out ∧
      out.Perm [⟨2, "14.10.25", "10:00", "1", "Подтвержден"⟩,
                ⟨3, "13.10.25", "12:30", "2", "На подтверждении"⟩] ∧
      out.Pairwise (fun a b =>
        (booking_sort_key a).getD 0 ≤ (booking_sort_key b).getD 0)) ∧
    get_cached_bookings (some [⟨4, "2025-10-13", "10:00", "1", "Подтвержден"⟩])
      none none none = .error .valueError :=
  ⟨c10_sorted_bookings.1
      [⟨2, "14.10.25", "10:00", "1", "Подтвержден"⟩,
       ⟨3, "13.10.25", "12:30", "2", "На подтверждении"⟩]
      none none none (by decide),
   c10_sorted_bookings.2 [⟨4, "2025-10-13", "10:00", "1", "Подтвержден"⟩]
      none none none
      ⟨⟨4, "2025-10-13", "10:00", "1", "Подтвержден"⟩, by decide, by decide⟩⟩

/-! ## Claim C1: the single-flight property of `Cache.get` -/

/-- Helper: the element at index `k` after `k` replicated entries. -/
theorem getElem?_replicate_append {α : Type} (k : Nat) (a : α) (b : α)
    (t : List α) : (List.replicate k a ++ b :: t)[k]? = some b := by
  induction k with
  | zero => simp
  | succ k ih => simpa [List.replicate_succ] using ih

/-- Helper: `getElem` version of `getElem?_replicate_append`. -/
theorem getElem_replicate_append {α : Type} (k : Nat) (a : α) (b : α)
    (t : List α) (h : k < (List.replicate k a ++ b :: t).length) :
    (List.replicate k a ++ b :: t)[k] = b := by
  rw [List.getElem_eq_iff]
  exact getElem?_replicate_append k a b t

/-- Helper: updating the element right after `k` replicated entries. -/
theorem set_replicate_append {α : Type} (k : Nat) (a b c : α) (t : List α) :
    (List.replicate k a ++ b :: t).set k c = List.replicate k a ++ c :: t := by
  induction k with
  | zero => rfl
  | succ k ih => simp [List.replicate_succ, ih]

/-- Helper: a replicated block absorbs an equal element that follows it. -/
theorem replicate_append_cons {α : Type} (k : Nat) (a : α) (t : List α) :
    List.replicate k a ++ a :: t = a :: (List.replicate k a ++ t) := by
  induction k with
  | zero => rfl
  | succ k ih => simp [List.replicate_succ, ih]

/-- Phase A of the canonical run of `m + 1` concurrent `get` callers on a
key with no live entry (nothing cached, or an expired entry `c`): caller 0
runs its first slice, finds no usable entry and no pending load, creates
and registers load task 0 and awaits it. -/
theorem sim_step_A (beh : Nat → Except Nat Nat) (m : Nat)
    (c : Option CacheEntry) (hc : ∀ e, c = some e → e.is_expired 0 = true) :
    step beh (init_state (m + 1) c) = stateB c 0 m := by
  rw [init_state, List.range_eq_range', List.range'_succ]
  cases c with
  | none =>
    simp [step, run_caller, run_caller_start, caller_miss_path, spawn_load,
      stateB, List.replicate_succ]
  | some e =>
    simp [step, run_caller, run_caller_start, caller_miss_path, spawn_load,
      stateB, List.replicate_succ, hc e rfl]

/-- Phase B: each remaining caller's first slice finds no live entry and
the registered pending load unfinished, and joins its waiter queue. -/
theorem sim_steps_B (beh : Nat → Except Nat Nat) (c : Option CacheEntry)
    (hc : ∀ e, c = some e → e.is_expired 0 = true) :
    ∀ r k, (step beh)^[r] (stateB c k r) = stateB c (k + r) 0 := by
  intro r
  induction r with
  | zero => intro k; rfl
  | succ r ih =>
    intro k
    rw [Function.iterate_succ_apply]
    have hrc : List.range' 1 (k + 1) = List.range' 1 k ++ [k + 1] := by
      rw [List.range'_concat, Nat.one_mul, Nat.add_comm]
    have hstep : step beh (stateB c k (r + 1)) = stateB c (k + 1) r := by
      rw [stateB, stateB, List.range'_succ]
      cases c with
      | none =>
        simp [step, run_caller, run_caller_start, caller_miss_path,
          spawn_load, LoadTask.dummy, List.replicate_succ,
          getElem?_replicate_append, getElem_replicate_append,
          set_replicate_append, hrc, replicate_append_cons]
      | some e =>
        simp [step, run_caller, run_caller_start, caller_miss_path,
          spawn_load, LoadTask.dummy, List.replicate_succ,
          getElem?_replicate_append, getElem_replicate_append,
          set_replicate_append, hrc, replicate_append_cons, hc e rfl]
    rw [hstep, ih (k + 1)]
    have h : k + 1 + r = k + (r + 1) := by omega
    rw [h]

/-- Phases C–F with a succeeding loader: the load task invokes the loader
(the single invocation of the run), suspends on the executor, is resolved
with `.ok v`, replaces whatever the key held by the fresh entry, finishes
waking everyone, and caller 0 collects the result and clears `_pending`. -/
theorem sim_steps_CF (v m : Nat) (c : Option CacheEntry) :
    (step (fun _ => Except.ok v))^[4] (stateB c m 0) =
      stateG (some ⟨v, 0, some 300⟩) v 1 m := by
  rw [Function.iterate_succ_apply, Function.iterate_succ_apply,
    Function.iterate_succ_apply, Function.iterate_one]
  simp [stateB, stateG, step, run_caller, run_caller_start, run_load,
    resolve_load, finish_load, find_waiting_exec, caller_after_await,
    LoadTask.dummy, List.replicate_succ]

/-- Phases C–F with a failing loader and a previous (expired) entry: the
load task invokes the loader, the executor future resolves with the
exception, `_load_and_cache` falls back to the stale entry (cache.py lines
165–171), so the task finishes with the old entry's data, the key keeps
its old entry, and caller 0 collects the stale value. -/
theorem sim_steps_CF_stale (m ε : Nat) (e : CacheEntry)
    (beh : Nat → Except Nat Nat) (hb : beh 0 = .error ε) :
    (step beh)^[4] (stateB (some e) m 0) = stateG (some e) e.data 1 m := by
  rw [Function.iterate_succ_apply, Function.iterate_succ_apply,
    Function.iterate_succ_apply, Function.iterate_one]
  simp [stateB, stateG, step, run_caller, run_caller_start, run_load,
    resolve_load, finish_load, find_waiting_exec, caller_after_await,
    LoadTask.dummy, List.replicate_succ, hb]

/-- Phase G: each woken waiter finds the key holding an entry with data `w`
(the fresh entry on success, the untouched stale entry on failure), returns
its data without re-checking expiry (cache.py lines 114–119) and finishes
with the shared value. -/
theorem sim_steps_G (beh : Nat → Except Nat Nat) (e : CacheEntry) (w : Nat)
    (hw : e.data = w) :
    ∀ r k, (step beh)^[r] (stateG (some e) w k r) =
      stateG (some e) w (k + r) 0 := by
  intro r
  induction r with
  | zero => intro k; rfl
  | succ r ih =>
    intro k
    rw [Function.iterate_succ_apply]
    have hstep : step beh (stateG (some e) w k (r + 1)) =
        stateG (some e) w (k + 1) r := by
      rw [stateG, stateG, List.range'_succ]
      simp [step, run_caller, caller_after_await, setCaller, LoadTask.dummy,
        List.replicate_succ, getElem?_replicate_append,
        getElem_replicate_append, set_replicate_append,
        replicate_append_cons, hw]
    rw [hstep, ih (k + 1)]
    have h : k + 1 + r = k + (r + 1) := by omega
    rw [h]

/-- Helper: the final state is quiescent — no runnable task, no outstanding
loader future — so further steps change nothing. -/
theorem sim_halt_step (beh : Nat → Except Nat Nat) (c : Option CacheEntry)
    (w k : Nat) :
    step beh (stateG c w k 0) = stateG c w k 0 := by
  rw [stateG]
  simp [step, find_waiting_exec]

/-- Claim C1 as stated is false: with no entry for the key and a loader
that fails, two concurrent `Cache.get` callers execute the loader twice,
not once, and receive different failures — the first caller gets the
exception of load 0 propagated, while the second caller, woken from
awaiting load 0, finds no cache entry and starts its own load (cache.py
lines 117–130) whose exception it then gets.  The run below is the
deterministic asyncio execution of the two-caller scenario (`behavior i =
.error i`, so the two loader invocations raise distinguishable
exceptions). -/
theorem c1_single_flight_counterexample :
    (sim_run (fun i => .error i) 12 (init_state 2 none)).calls = 2 ∧
    ¬ (sim_run (fun i => .error i) 12 (init_state 2 none)).calls = 1 ∧
    (sim_run (fun i => .error i) 12 (init_state 2 none)).callers =
      [.done (.error 0), .done (.error 1)] :=
  ⟨by decide, by decide, by decide⟩

/-- Claim C1, amended: when `n ≥ 1` callers concurrently invoke
`Cache.get(k, loader)` while no live entry for `k` exists — the key holds
nothing, or only an expired entry — and the single in-flight load
*succeeds* with value `v`, the loader is executed exactly once and every
caller receives `v`; and when that load *fails* while a previous (expired)
entry exists, the loader is still executed exactly once and every caller
receives the same stale-fallback value, the old entry's data.  (Only on
load failure with no previous entry does the deduplication break down:
the failure propagates solely to the load's initiator and each waiter
falls back to its own reload — see the C1 counterexample.) -/
theorem c1_single_flight_amended :
    (∀ (n v : Nat) (c : Option CacheEntry), 1 ≤ n →
      (∀ e, c = some e → e.is_expired 0 = true) →
      (sim_run (fun _ => Except.ok v) (2 * n + 4) (init_state n c)).calls = 1 ∧
      (sim_run (fun _ => Except.ok v) (2 * n + 4) (init_state n c)).callers =
        List.replicate n (.done (.ok v))) ∧
    (∀ (n ε : Nat) (e : CacheEntry) (beh : Nat → Except Nat Nat), 1 ≤ n →
      e.is_expired 0 = true → beh 0 = .error ε →
      (sim_run beh (2 * n + 4) (init_state n (some e))).calls = 1 ∧
      (sim_run beh (2 * n + 4) (init_state n (some e))).callers =
        List.replicate n (.done (.ok e.data))) := by
  constructor
  · intro n v c hn hc
    obtain ⟨m, rfl⟩ : ∃ m, n = m + 1 := ⟨n - 1, by omega⟩
    have hw : (⟨v, 0, some 300⟩ : CacheEntry).data = v := rfl
    have hrun : sim_run (fun _ => Except.ok v) (2 * (m + 1) + 4)
        (init_state (m + 1) c) =
          stateG (some ⟨v, 0, some 300⟩) v (m + 1) 0 := by
      have hsplit : 2 * (m + 1) + 4 = 1 + (m + (4 + (m + 1))) := by omega
      rw [sim_run, hsplit, Function.iterate_add_apply,
        Function.iterate_add_apply, Function.iterate_add_apply,
        Function.iterate_add_apply, Function.iterate_one]
      rw [sim_step_A _ _ _ hc, sim_steps_B _ _ hc, Nat.zero_add,
        sim_steps_CF, sim_steps_G _ _ _ hw]
      have h1 : 1 + m = m + 1 := by omega
      rw [h1, sim_halt_step]
    rw [hrun]
    exact ⟨rfl, by simp [stateG]⟩
  · intro n ε e beh hn he hb
    obtain ⟨m, rfl⟩ : ∃ m, n = m + 1 := ⟨n - 1, by omega⟩
    have hc : ∀ x, (some e : Option CacheEntry) = some x →
        x.is_expired 0 = true := by
      intro x hx
      injection hx with h
      rw [← h]
      exact he
    have hrun : sim_run beh (2 * (m + 1) + 4) (init_state (m + 1) (some e)) =
        stateG (some e) e.data (m + 1) 0 := by
      have hsplit : 2 * (m + 1) + 4 = 1 + (m + (4 + (m + 1))) := by omega
      rw [sim_run, hsplit, Function.iterate_add_apply,
        Function.iterate_add_apply, Function.iterate_add_apply,
        Function.iterate_add_apply, Function.iterate_one]
      rw [sim_step_A _ _ _ hc, sim_steps_B _ _ hc, Nat.zero_add,
        sim_steps_CF_stale _ _ _ _ hb, sim_steps_G _ _ _ rfl]
      have h1 : 1 + m = m + 1 := by omega
      rw [h1, sim_halt_step]
    rw [hrun]
    exact ⟨rfl, by simp [stateG]⟩

/-- Witness for C1 (amended): three concurrent callers on a key holding an
expired entry (data 9, created at −400, TTL 300, so 400 s old at time 0).
With a loader returning 7 there is one invocation and all three callers
get 7; with a failing loader there is one invocation and all three callers
share the stale value 9. -/
theorem c1_single_flight_amended_witness :
    (1 : Nat) ≤ 3 ∧
    CacheEntry.is_expired ⟨9, -400, some 300⟩ 0 = true ∧
    (sim_run (fun _ => Except.ok 7) (2 * 3 + 4)
        (init_state 3 (some ⟨9, -400, some 300⟩))).calls = 1 ∧
    (sim_run (fun _ => Except.ok 7) (2 * 3 + 4)
        (init_state 3 (some ⟨9, -400, some 300⟩))).callers =
      List.replicate 3 (.done (.ok 7)) ∧
    (sim_run (fun i => Except.error i) (2 * 3 + 4)
        (init_state 3 (some ⟨9, -400, some 300⟩))).calls = 1 ∧
    (sim_run (fun i => Except.error i) (2 * 3 + 4)
        (init_state 3 (some ⟨9, -400, some 300⟩))).callers =
      List.replicate 3 (.done (.ok 9)) := by
  have h1 := c1_single_flight_amended.1 3 7 (some ⟨9, -400, some 300⟩)
    (by decide) (fun x hx => by injection hx with h; rw [← h]; decide)
  have h2 := c1_single_flight_amended.2 3 0 ⟨9, -400, some 300⟩
    (fun i => Except.error i) (by decide) (by decide) rfl
  exact ⟨by decide, by decide, h1.1, h1.2, h2.1, h2.2⟩

end VkBot
